import Mathlib

/- Shallow embedding of the crawly browser-automation core:
   the BrowserManager class (session lifecycle, retry loop, page registry)
   and the RequestManager class (request interception listeners, capture
   history, resource-type blocking).

   External effects are passed in as explicit values: the underlying
   puppeteer.launch call becomes a function from the attempt number (or the
   launch options) to an Except result, browser.newPage becomes an Except
   value, and waiting/killing/closing are recorded in an event trace.
   Browser and page handles are represented by natural numbers. -/

namespace Crawly

/-- JS String.prototype.includes: does pat occur as a contiguous substring
    of s (over the character list of the string). -/
def stringIncludes (s pat : String) : Bool :=
  (List.range (s.length + 1)).any fun i => pat.toList.isPrefixOf (s.toList.drop i)

/-- BrowserManager.killChromeProcesses: runs taskkill and never throws.
    The argument is the outcome of the underlying exec of
    taskkill /IM chrome.exe /F. A success returns true; a failure whose
    message does not include the text not found returns false; a failure
    whose message does include it returns true. -/
def killChromeProcesses (res : Except String Unit) : Bool :=
  match res with
  | .ok _ => true
  | .error msg =>
    if !(stringIncludes msg "not found") then false
    else true

/-- PuppeteerLaunchOptions restricted to the keys the repository touches;
    a field is none exactly when the caller did not supply that key. -/
structure LaunchOptions where
  headless : Option Bool := none
  args : Option (List String) := none
  userDataDir : Option String := none
  deriving DecidableEq

/-- The defaultOptions object built inside launchBrowser:
    headless true, sandboxing disabled. -/
def defaultOptions : LaunchOptions :=
  { headless := some true
    args := some ["--no-sandbox", "--disable-setuid-sandbox"] }

/-- The JS object spread that builds finalOptions: a key present in the
    caller options overwrites the default, an absent key keeps the default. -/
def mergeOptions (dflt options : LaunchOptions) : LaunchOptions :=
  { headless := options.headless.orElse fun _ => dflt.headless
    args := options.args.orElse fun _ => dflt.args
    userDataDir := options.userDataDir.orElse fun _ => dflt.userDataDir }

/-- Observable events of the BrowserManager methods: a kill of stray
    chrome processes, a wait, one puppeteer.launch attempt (indexed by the
    attempt number), one puppeteer.launch call with merged options, and the
    release of a browser handle. -/
inductive Ev where
  | kill
  | delay (ms : Nat)
  | attempt (n : Nat)
  | launch (opts : LaunchOptions)
  | closeHandle (b : Nat)
  deriving DecidableEq

/-- The mutable fields of a BrowserManager instance: the browser handle
    (null when not launched) and the list of opened pages. -/
structure BMState where
  browser : Option Nat := none
  pages : List Nat := []
  deriving DecidableEq

/-- BrowserManager.isBrowserLaunched: the browser field is not null. -/
def isBrowserLaunched (s : BMState) : Bool :=
  s.browser.isSome

/-- The while loop of BrowserManager.initPuppeteer. Each iteration:
    when manageErrors, kill stray processes and wait delayTime; then try
    puppeteer.launch (modelled as start applied to the attempt number);
    on success store the browser and return; on failure increment the
    attempt counter and wait delayTime again. When the attempt counter
    reaches retryCount the loop ends and a fixed error is thrown. -/
def initPuppeteerLoop (start : Nat → Except String Nat) (manageErrors : Bool)
    (delayTime : Nat) (s : BMState) (attempt remaining : Nat) :
    BMState × List Ev × Except String Unit :=
  match remaining with
  | 0 => (s, [], .error "Failed to initialize Puppeteer after multiple attempts")
  | r + 1 =>
    let pre : List Ev := if manageErrors then [.kill, .delay delayTime] else []
    match start attempt with
    | .ok b => ({ s with browser := some b }, pre ++ [.attempt attempt], .ok ())
    | .error _ =>
      let rest := initPuppeteerLoop start manageErrors delayTime s (attempt + 1) r
      (rest.1, pre ++ [.attempt attempt, .delay delayTime] ++ rest.2.1, rest.2.2)

/-- BrowserManager.initPuppeteer: the retry loop started at attempt 0. -/
def initPuppeteer (start : Nat → Except String Nat) (manageErrors : Bool)
    (delayTime : Nat) (s : BMState) (retryCount : Nat) :
    BMState × List Ev × Except String Unit :=
  initPuppeteerLoop start manageErrors delayTime s 0 retryCount

/-- The launchBrowser method of the stealth BrowserManager variant: build
    finalOptions by spreading the caller options over defaultOptions, then
    call puppeteer.launch once with finalOptions; on success store and
    return the browser, on failure rethrow with a wrapping message. -/
def launchBrowser (start : LaunchOptions → Except String Nat)
    (options : LaunchOptions) (s : BMState) :
    BMState × List Ev × Except String Nat :=
  let finalOptions := mergeOptions defaultOptions options
  match start finalOptions with
  | .ok b => ({ s with browser := some b }, [.launch finalOptions], .ok b)
  | .error e => (s, [.launch finalOptions], .error ("Failed to launch browser: " ++ e))

/-- The launchBrowser method of the plain BrowserManager variant: when
    manageErrors it delegates to initPuppeteer and returns this.browser
    (non-null assertion modelled by a default), otherwise it calls
    puppeteer.launch once directly. -/
def launchBrowser0 (start : Nat → Except String Nat) (manageErrors : Bool)
    (delayTime retryCount : Nat) (s : BMState) :
    BMState × List Ev × Except String Nat :=
  if manageErrors then
    let r := initPuppeteer start manageErrors delayTime s retryCount
    match r.2.2 with
    | .ok _ => (r.1, r.2.1, .ok (r.1.browser.getD 0))
    | .error e => (r.1, r.2.1, .error e)
  else
    match start 0 with
    | .ok b => ({ s with browser := some b }, [.attempt 0], .ok b)
    | .error e => (s, [.attempt 0], .error e)

/-- BrowserManager.createPage: throws when the browser is null; otherwise
    tries browser.newPage (modelled by the newPage argument), pushes the
    new page on success and returns it, and rethrows a fixed message on
    failure leaving the state untouched. -/
def createPage (newPage : Except String Nat) (s : BMState) :
    BMState × Except String Nat :=
  match s.browser with
  | none => (s, .error "Browser not launched. Call launchBrowser() first.")
  | some _ =>
    match newPage with
    | .ok p => ({ s with pages := s.pages ++ [p] }, .ok p)
    | .error _ => (s, .error "Failed to create a new page")

/-- BrowserManager.closeBrowser: when a browser is present, close its
    handle, null the browser field and clear the pages list; otherwise do
    nothing. -/
def closeBrowser (s : BMState) : BMState × List Ev :=
  match s.browser with
  | some b => ({ browser := none, pages := [] }, [.closeHandle b])
  | none => (s, [])

/-- BrowserManager.getPage: bounds check the index (a JS number, so it may
    be negative) and return the page stored at that position. -/
def getPage (s : BMState) (index : Int) : Except String Nat :=
  if h : index < 0 ∨ (s.pages.length : Int) ≤ index then
    .error "Invalid page index"
  else
    .ok (s.pages.get ⟨index.toNat, by omega⟩)

/-- BrowserManager.getAllPages: the full pages list. -/
def getAllPages (s : BMState) : List Nat :=
  s.pages

/-- One outgoing request as seen by the interception listeners. -/
structure Request where
  url : String
  method : String
  headers : List (String × String)
  resourceType : String
  deriving DecidableEq

/-- The resolution a listener asks puppeteer for on one request. -/
inductive Decision where
  | cont
  | abort
  deriving DecidableEq

/-- The request listeners RequestManager registers on the page: the
    capturing listener of interceptRequests (push a record, then continue)
    and the listener of blockResourceTypes (abort the listed resource
    types, continue the rest; it records nothing). -/
inductive Listener where
  | capture
  | block (resourceTypes : List String)
  deriving DecidableEq

/-- The state of one RequestManager and its page: the captured requests
    array, whether setRequestInterception(true) has been called, and the
    listeners registered with page.on in registration order (the event
    emitter appends listeners; it never replaces them). -/
structure RMState where
  requests : List Request := []
  interception : Bool := false
  listeners : List Listener := []
  deriving DecidableEq

/-- A fresh RequestManager on a fresh page. -/
def initRM : RMState := {}

/-- RequestManager.interceptRequests: enable interception and register one
    more capturing listener. -/
def interceptRequests (s : RMState) : RMState :=
  { s with interception := true, listeners := s.listeners ++ [.capture] }

/-- RequestManager.blockResourceTypes: enable interception and register
    one more blocking listener for the given resource types. -/
def blockResourceTypes (resourceTypes : List String) (s : RMState) : RMState :=
  { s with interception := true, listeners := s.listeners ++ [.block resourceTypes] }

/-- The object literal the capturing listener pushes: the url, method,
    headers and resourceType of the observed request. -/
def mkRecord (r : Request) : Request :=
  { url := r.url, method := r.method, headers := r.headers
    resourceType := r.resourceType }

/-- The body of one registered listener on one request: what it pushes
    into the requests array (if anything) and which resolution it asks
    for. The capturing listener pushes its record and then continues; the
    blocking listener pushes nothing and aborts exactly the listed
    resource types. -/
def listenerStep (r : Request) (l : Listener) : Option Request × Option Decision :=
  match l with
  | .capture => (some (mkRecord r), some .cont)
  | .block ts => (none, some (if ts.contains r.resourceType then .abort else .cont))

/-- Run the registered listeners in registration order on one request,
    threading the requests array. Puppeteer applies the first continue or
    abort issued for a request (a later resolution of an already handled
    request fails), so the applied decision is the first one issued. -/
def dispatchAux (r : Request) (ls : List Listener) (recs : List Request)
    (dec : Option Decision) : List Request × Option Decision :=
  match ls with
  | [] => (recs, dec)
  | l :: rest =>
    let step := listenerStep r l
    let recs1 := match step.1 with
      | some rec => recs ++ [rec]
      | none => recs
    let dec1 := match dec with
      | some d0 => some d0
      | none => step.2
    dispatchAux r rest recs1 dec1

/-- Arrival of one request on the page: all registered listeners run in
    order; the result is the new state and the applied resolution (none
    when no listener is registered). -/
def dispatch (r : Request) (s : RMState) : RMState × Option Decision :=
  let out := dispatchAux r s.listeners s.requests none
  ({ s with requests := out.1 }, out.2)

/-- Arrival of a sequence of requests, returning the final state and the
    applied resolution of each request in arrival order. -/
def dispatchAll (rs : List Request) (s : RMState) : RMState × List (Option Decision) :=
  match rs with
  | [] => (s, [])
  | r :: rest =>
    let first := dispatch r s
    let tail := dispatchAll rest first.1
    (tail.1, first.2 :: tail.2)

/-- RequestManager.getRequests: the captured requests array. -/
def getRequests (s : RMState) : List Request :=
  s.requests

/-- RequestManager.clearRequests: empty the captured requests array. -/
def clearRequests (s : RMState) : RMState :=
  { s with requests := [] }

/-- RequestManager.filterRequestsByMethod: requests whose method equals
    the upper-cased argument. -/
def filterRequestsByMethod (method : String) (s : RMState) : List Request :=
  s.requests.filter fun r => r.method == method.toUpper

/-- RequestManager.filterRequestsByUrl: requests whose url includes the
    keyword. -/
def filterRequestsByUrl (urlKeyword : String) (s : RMState) : List Request :=
  s.requests.filter fun r => stringIncludes r.url urlKeyword

/-- The event trace produced by the retry loop of initPuppeteer when every
    attempt fails, starting at attempt number a with r attempts left. -/
def attemptTrace (manageErrors : Bool) (delayTime : Nat) : Nat → Nat → List Ev
  | _, 0 => []
  | a, r + 1 =>
    (if manageErrors then [Ev.kill, Ev.delay delayTime] else []) ++
      ([Ev.attempt a, Ev.delay delayTime] ++ attemptTrace manageErrors delayTime (a + 1) r)

/-- Number of puppeteer.launch attempts recorded in an event trace. -/
def countAttempts (evs : List Ev) : Nat :=
  (evs.filter fun e => match e with | Ev.attempt _ => true | _ => false).length

/-- Every attempt event in the trace is immediately followed by a delay
    event: the loop waits after each failed attempt. -/
def delayFollowsAttempts : List Ev → Bool
  | [] => true
  | Ev.attempt _ :: rest =>
    (match rest with
      | Ev.delay _ :: _ => true
      | _ => false) && delayFollowsAttempts rest
  | Ev.kill :: rest => delayFollowsAttempts rest
  | Ev.delay _ :: rest => delayFollowsAttempts rest
  | Ev.launch _ :: rest => delayFollowsAttempts rest
  | Ev.closeHandle _ :: rest => delayFollowsAttempts rest

theorem mkRecord_eq (r : Request) : mkRecord r = r := rfl

/-- Arrival of one request on a page whose only listener is the capturing
    listener of interceptRequests: the record is appended and the request
    is continued. -/
theorem dispatch_capture (r : Request) (hist : List Request) (ic : Bool) :
    dispatch r ⟨hist, ic, [Listener.capture]⟩ =
      (⟨hist ++ [r], ic, [Listener.capture]⟩, some Decision.cont) := rfl

/-- Claim C1 counterexample: with the listener installed by
    blockResourceTypes (the cited decision path), an observed request of a
    blocked resource type receives the abort decision but no record is
    appended to the history, so history does not contain a record for
    every observed request. -/
theorem block_listener_records_nothing :
    (dispatch ⟨"https://e.com/a.png", "GET", [], "image"⟩
        (blockResourceTypes ["image"] initRM)).2 = some Decision.abort ∧
    (dispatch ⟨"https://e.com/a.png", "GET", [], "image"⟩
        (blockResourceTypes ["image"] initRM)).1.requests = [] := by
  constructor <;> rfl

/-- Claim C1 (amended): requests observed by the capturing listener of
    interceptRequests are appended to the history in arrival order (so
    record positions strictly increase with arrival order) and each such
    request receives the continue decision; the listener installed by
    blockResourceTypes decides abort or continue without appending any
    record, so aborted traffic it handles leaves no trace in the history. -/
theorem capture_history_arrival_order (hist rs : List Request) (ts : List String) :
    ((dispatchAll rs ⟨hist, true, [Listener.capture]⟩).1.requests = hist ++ rs) ∧
    ((dispatchAll rs ⟨hist, true, [Listener.capture]⟩).2 =
      rs.map fun _ => some Decision.cont) ∧
    ((dispatchAll rs ⟨hist, true, [Listener.block ts]⟩).1.requests = hist) := by
  induction rs generalizing hist with
  | nil => simp [dispatchAll]
  | cons r rest ih =>
    refine ⟨?_, ?_, ?_⟩
    · show (dispatchAll rest ⟨hist ++ [r], true, [Listener.capture]⟩).1.requests =
        hist ++ r :: rest
      rw [(ih (hist ++ [r])).1]
      simp
    · show some Decision.cont :: (dispatchAll rest ⟨hist ++ [r], true, [Listener.capture]⟩).2 =
        (r :: rest).map fun _ => some Decision.cont
      rw [(ih (hist ++ [r])).2.1]
      simp
    · show (dispatchAll rest ((dispatch r ⟨hist, true, [Listener.block ts]⟩).1)).1.requests = hist
      have hb : (dispatch r ⟨hist, true, [Listener.block ts]⟩).1 =
          ⟨hist, true, [Listener.block ts]⟩ := rfl
      rw [hb, (ih hist).2.2]

/-- Claim C2 counterexample: calling interceptRequests twice registers two
    listeners (the second call is not a no-op and does not replace the
    first), and a single arriving request then produces two history
    records. -/
theorem double_attach_duplicates_records :
    ((interceptRequests (interceptRequests initRM)).listeners.length = 2) ∧
    ((dispatch ⟨"https://e.com", "GET", [], "document"⟩
        (interceptRequests (interceptRequests initRM))).1.requests.length = 2) := by
  constructor <;> rfl

/-- Claim C2 (amended): each call of interceptRequests or
    blockResourceTypes appends one more listener to the page (the event
    emitter accumulates listeners, it neither replaces nor deduplicates),
    so with two capturing listeners one arriving request produces two
    history records; each listener issues its own resolution and puppeteer
    applies the first one. -/
theorem listeners_accumulate (s : RMState) (ts : List String) (r : Request)
    (hist : List Request) :
    ((interceptRequests s).listeners = s.listeners ++ [Listener.capture]) ∧
    ((blockResourceTypes ts s).listeners = s.listeners ++ [Listener.block ts]) ∧
    ((dispatch r ⟨hist, true, [Listener.capture, Listener.capture]⟩).1.requests =
      hist ++ [r, r]) ∧
    ((dispatch r ⟨hist, true, [Listener.capture, Listener.capture]⟩).2 =
      some Decision.cont) := by
  refine ⟨rfl, rfl, ?_, rfl⟩
  show hist ++ [mkRecord r] ++ [mkRecord r] = hist ++ [r, r]
  simp [mkRecord_eq]

/-- Claim C8: with the listener installed by blockResourceTypes as the
    page listener, every observed request whose resourceType is in the
    given list receives the abort decision and every other observed
    request receives the continue decision; in particular, with image and
    stylesheet blocked, of three requests of resource types image, script
    and stylesheet only the script request reaches continue. -/
theorem blockResourceTypes_decisions (ts : List String) (r : Request)
    (hist : List Request) (ic : Bool) :
    ((dispatch r (blockResourceTypes ts ⟨hist, ic, []⟩)).2 =
      some (if ts.contains r.resourceType then Decision.abort else Decision.cont)) ∧
    ((dispatchAll
        [⟨"https://e.com/a.png", "GET", [], "image"⟩,
         ⟨"https://e.com/a.js", "GET", [], "script"⟩,
         ⟨"https://e.com/a.css", "GET", [], "stylesheet"⟩]
        (blockResourceTypes ["image", "stylesheet"] initRM)).2 =
      [some Decision.abort, some Decision.cont, some Decision.abort]) := by
  constructor <;> rfl

/-- When every launch attempt fails, the retry loop leaves the state
    untouched, produces the attempt trace, and throws the fixed error. -/
theorem initPuppeteerLoop_fail (start : Nat → Except String Nat) (es : Nat → String)
    (me : Bool) (dt : Nat) (s : BMState) (a r : Nat)
    (hfail : ∀ n, start n = Except.error (es n)) :
    initPuppeteerLoop start me dt s a r =
      (s, attemptTrace me dt a r,
        Except.error "Failed to initialize Puppeteer after multiple attempts") := by
  induction r generalizing a with
  | zero => rfl
  | succ r ih =>
    simp only [initPuppeteerLoop, hfail a, ih (a + 1), attemptTrace, List.append_assoc]

theorem countAttempts_nil : countAttempts [] = 0 := rfl

theorem countAttempts_append (l1 l2 : List Ev) :
    countAttempts (l1 ++ l2) = countAttempts l1 + countAttempts l2 := by
  simp [countAttempts, List.filter_append]

theorem countAttempts_attemptTrace (me : Bool) (dt a r : Nat) :
    countAttempts (attemptTrace me dt a r) = r := by
  induction r generalizing a with
  | zero => rfl
  | succ r ih =>
    rw [attemptTrace, countAttempts_append, countAttempts_append, ih (a + 1)]
    cases me <;> simp [countAttempts] <;> omega

theorem delayFollowsAttempts_attemptTrace (me : Bool) (dt a r : Nat) :
    delayFollowsAttempts (attemptTrace me dt a r) = true := by
  induction r generalizing a with
  | zero => rfl
  | succ r ih =>
    cases me with
    | false =>
      show delayFollowsAttempts
        (Ev.attempt a :: Ev.delay dt :: attemptTrace false dt (a + 1) r) = true
      simp [delayFollowsAttempts, ih (a + 1)]
    | true =>
      show delayFollowsAttempts
        (Ev.kill :: Ev.delay dt :: Ev.attempt a :: Ev.delay dt ::
          attemptTrace true dt (a + 1) r) = true
      simp [delayFollowsAttempts, ih (a + 1)]

/-- Claim C3 counterexample: when every attempt fails, initPuppeteer
    rejects with the fixed message Failed to initialize Puppeteer after
    multiple attempts; the message does not include the last underlying
    failure, and two runs with different underlying failures reject with
    the identical error, so the thrown error does not carry the last
    underlying failure. -/
theorem launch_exhaustion_error_is_constant :
    ((initPuppeteer (fun _ => Except.error "spawn chrome EACCES") true 3000 {} 2).2.2 =
      Except.error "Failed to initialize Puppeteer after multiple attempts") ∧
    (stringIncludes "Failed to initialize Puppeteer after multiple attempts"
      "spawn chrome EACCES" = false) ∧
    ((initPuppeteer (fun _ => Except.error "boomA") true 3000 {} 2).2.2 =
      (initPuppeteer (fun _ => Except.error "boomB") true 3000 {} 2).2.2) := by
  refine ⟨rfl, by decide, rfl⟩

/-- Claim C3 (amended): when the underlying browser start fails on every
    attempt, initPuppeteer performs exactly retryCount launch attempts,
    waits delayTime immediately after every failed attempt (and also
    reaps processes and waits before each attempt when manageErrors is
    set), leaves the manager state unchanged — in particular a session
    that was not previously launched ends not launched — and rejects with
    the fixed error message Failed to initialize Puppeteer after multiple
    attempts, which does not carry the last underlying failure. -/
theorem initPuppeteer_exhausts_attempts (start : Nat → Except String Nat)
    (es : Nat → String) (me : Bool) (dt rc : Nat) (s : BMState)
    (hfail : ∀ n, start n = Except.error (es n)) :
    ((initPuppeteer start me dt s rc).1 = s) ∧
    ((initPuppeteer start me dt s rc).2.2 =
      Except.error "Failed to initialize Puppeteer after multiple attempts") ∧
    (countAttempts (initPuppeteer start me dt s rc).2.1 = rc) ∧
    (delayFollowsAttempts (initPuppeteer start me dt s rc).2.1 = true) ∧
    (s.browser = none → isBrowserLaunched (initPuppeteer start me dt s rc).1 = false) := by
  have h := initPuppeteerLoop_fail start es me dt s 0 rc hfail
  rw [initPuppeteer, h]
  refine ⟨rfl, rfl, countAttempts_attemptTrace me dt 0 rc,
    delayFollowsAttempts_attemptTrace me dt 0 rc, ?_⟩
  intro hb
  simp [isBrowserLaunched, hb]

theorem initPuppeteer_exhausts_attempts_witness :
    ((initPuppeteer (fun _ => Except.error "boom") true 3000 {} 2).1 = ({} : BMState)) ∧
    (countAttempts (initPuppeteer (fun _ => Except.error "boom") true 3000 {} 2).2.1 = 2) ∧
    (isBrowserLaunched (initPuppeteer (fun _ => Except.error "boom") true 3000 {} 2).1 =
      false) :=
  ⟨(initPuppeteer_exhausts_attempts (fun _ => Except.error "boom") (fun _ => "boom")
      true 3000 2 {} (fun _ => rfl)).1,
   (initPuppeteer_exhausts_attempts (fun _ => Except.error "boom") (fun _ => "boom")
      true 3000 2 {} (fun _ => rfl)).2.2.1,
   (initPuppeteer_exhausts_attempts (fun _ => Except.error "boom") (fun _ => "boom")
      true 3000 2 {} (fun _ => rfl)).2.2.2.2 rfl⟩

/-- The retry loop never touches the pages list. -/
theorem initPuppeteerLoop_pages (start : Nat → Except String Nat) (me : Bool)
    (dt : Nat) (s : BMState) (a r : Nat) :
    (initPuppeteerLoop start me dt s a r).1.pages = s.pages := by
  induction r generalizing a with
  | zero => rfl
  | succ r ih =>
    rw [initPuppeteerLoop]
    cases start a <;> simp [ih (a + 1)]

/-- Claim C4 counterexample: launch a browser, open a page, then issue a
    second successful launch without closing; immediately after that
    successful launch the pages list still holds the stale page, so pages
    is not empty immediately after a successful launch. -/
theorem relaunch_keeps_stale_pages :
    ((launchBrowser (fun _ => Except.ok 2) {}
        ((createPage (Except.ok 7)
          ((launchBrowser (fun _ => Except.ok 1) {} {}).1)).1)).2.2 = Except.ok 2) ∧
    ((launchBrowser (fun _ => Except.ok 2) {}
        ((createPage (Except.ok 7)
          ((launchBrowser (fun _ => Except.ok 1) {} {}).1)).1)).1.pages = [7]) := by
  constructor <;> rfl

/-- Claim C4 (amended): immediately after every successful launch the
    session is launched (the ready state), but the pages list is left
    exactly as it was — launch never clears it — so pages is empty after a
    successful launch only when it was empty before; this holds for the
    merging launchBrowser, for the plain variant, and for the retry loop. -/
theorem launchBrowser_success_ready_pages_unchanged
    (start : LaunchOptions → Except String Nat) (o : LaunchOptions) (s : BMState)
    (b : Nat) (hok : start (mergeOptions defaultOptions o) = Except.ok b) :
    ((launchBrowser start o s).1.browser = some b) ∧
    (isBrowserLaunched (launchBrowser start o s).1 = true) ∧
    ((launchBrowser start o s).1.pages = s.pages) ∧
    ((launchBrowser start o s).2.2 = Except.ok b) ∧
    (∀ st0 : Nat → Except String Nat, ∀ me : Bool, ∀ dt rc : Nat,
      (launchBrowser0 st0 me dt rc s).1.pages = s.pages) := by
  refine ⟨?_, ?_, ?_, ?_, ?_⟩
  · simp [launchBrowser, hok]
  · simp [launchBrowser, hok, isBrowserLaunched]
  · simp [launchBrowser, hok]
  · simp [launchBrowser, hok]
  · intro st0 me dt rc
    rw [launchBrowser0]
    cases me with
    | true =>
      simp only [if_true]
      have hp := initPuppeteerLoop_pages st0 true dt s 0 rc
      cases hres : (initPuppeteer st0 true dt s rc).2.2 <;>
        simpa [initPuppeteer] using hp
    | false =>
      simp only [if_false]
      cases st0 0 <;> rfl

theorem launchBrowser_success_ready_pages_unchanged_witness :
    ((launchBrowser (fun _ => Except.ok 4) {} ⟨none, [9]⟩).1.browser = some 4) ∧
    ((launchBrowser (fun _ => Except.ok 4) {} ⟨none, [9]⟩).1.pages = [9]) ∧
    ((launchBrowser0 (fun _ => Except.error "x") true 3000 2 ⟨none, [9]⟩).1.pages = [9]) :=
  ⟨(launchBrowser_success_ready_pages_unchanged (fun _ => Except.ok 4) {}
      ⟨none, [9]⟩ 4 rfl).1,
   (launchBrowser_success_ready_pages_unchanged (fun _ => Except.ok 4) {}
      ⟨none, [9]⟩ 4 rfl).2.2.1,
   (launchBrowser_success_ready_pages_unchanged (fun _ => Except.ok 4) {}
      ⟨none, [9]⟩ 4 rfl).2.2.2.2 (fun _ => Except.error "x") true 3000 2⟩

/-- Claim C5: the defaults of launchBrowser are headless true with the two
    sandbox-disabling arguments, and the spread building finalOptions
    lets a key supplied by the caller win on conflict while every key the
    caller left absent keeps its default; launchBrowser then invokes the
    underlying start exactly with these merged options. -/
theorem launch_options_merge_caller_wins (o : LaunchOptions)
    (start : LaunchOptions → Except String Nat) (s : BMState) :
    (defaultOptions.headless = some true ∧
      defaultOptions.args = some ["--no-sandbox", "--disable-setuid-sandbox"] ∧
      defaultOptions.userDataDir = none) ∧
    ((mergeOptions defaultOptions o).headless =
      if o.headless.isSome then o.headless else defaultOptions.headless) ∧
    ((mergeOptions defaultOptions o).args =
      if o.args.isSome then o.args else defaultOptions.args) ∧
    ((mergeOptions defaultOptions o).userDataDir =
      if o.userDataDir.isSome then o.userDataDir else defaultOptions.userDataDir) ∧
    ((launchBrowser start o s).2.1 = [Ev.launch (mergeOptions defaultOptions o)]) := by
  refine ⟨⟨rfl, rfl, rfl⟩, ?_, ?_, ?_, ?_⟩
  · cases h : o.headless <;> simp [mergeOptions, h, Option.orElse]
  · cases h : o.args <;> simp [mergeOptions, h, Option.orElse]
  · cases h : o.userDataDir <;> simp [mergeOptions, h, Option.orElse]
  · rw [launchBrowser]
    cases start (mergeOptions defaultOptions o) <;> rfl

/-- Claim C6: createPage before the browser is launched fails with the
    session-not-ready message and changes nothing; on a launched session
    whose underlying newPage call errors it fails with the fixed
    page-creation message while the state (hence readiness and the pages
    list) is untouched; on success it appends exactly one page at the
    next dense index and returns that page. -/
theorem createPage_spec (np : Except String Nat) (s : BMState) :
    (s.browser = none →
      createPage np s = (s, Except.error "Browser not launched. Call launchBrowser() first.")) ∧
    (∀ b e, s.browser = some b → np = Except.error e →
      (createPage np s).1 = s ∧
      isBrowserLaunched (createPage np s).1 = true ∧
      (createPage np s).2 = Except.error "Failed to create a new page") ∧
    (∀ b p, s.browser = some b → np = Except.ok p →
      (createPage np s).1.pages = s.pages ++ [p] ∧
      (createPage np s).1.browser = some b ∧
      (createPage np s).2 = Except.ok p ∧
      (createPage np s).1.pages.length = s.pages.length + 1) := by
  refine ⟨?_, ?_, ?_⟩
  · intro h
    simp [createPage, h]
  · intro b e hb hn
    simp [createPage, hb, hn, isBrowserLaunched]
  · intro b p hb hn
    simp [createPage, hb, hn]

theorem createPage_spec_witness :
    ((createPage (Except.ok 7) { browser := some 1 }).1.pages = [7]) ∧
    ((createPage (Except.ok 7) { browser := some 1 }).1.pages.length = 0 + 1) ∧
    ((createPage (Except.error "x") {}).2 =
      Except.error "Browser not launched. Call launchBrowser() first.") ∧
    ((createPage (Except.error "x") { browser := some 1 }).2 =
      Except.error "Failed to create a new page") ∧
    ((createPage (Except.error "x") { browser := some 1 }).1 =
      { browser := some 1 }) :=
  ⟨((createPage_spec (Except.ok 7) { browser := some 1 }).2.2 1 7 rfl rfl).1,
   ((createPage_spec (Except.ok 7) { browser := some 1 }).2.2 1 7 rfl rfl).2.2.2,
   congrArg Prod.snd ((createPage_spec (Except.error "x") {}).1 rfl),
   ((createPage_spec (Except.error "x") { browser := some 1 }).2.1 1 "x" rfl rfl).2.2,
   ((createPage_spec (Except.error "x") { browser := some 1 }).2.1 1 "x" rfl rfl).1⟩

/-- Claim C7: getPage fails with the invalid-index message exactly for a
    negative index or an index at or beyond the page count, and for every
    in-range index it succeeds and returns the page stored at that
    position of the pages list (the call is a pure lookup, so every call
    with the same index on the same state returns the same handle). -/
theorem getPage_bounds (s : BMState) (i : Int) :
    (getPage s i = Except.error "Invalid page index" ↔
      (i < 0 ∨ (s.pages.length : Int) ≤ i)) ∧
    (0 ≤ i → i < (s.pages.length : Int) →
      getPage s i = Except.ok (s.pages.getD i.toNat 0)) := by
  constructor
  · constructor
    · intro h
      by_contra hc
      rw [getPage, dif_neg hc] at h
      exact Except.noConfusion h
    · intro h
      rw [getPage, dif_pos h]
  · intro h0 hlt
    have hc : ¬(i < 0 ∨ (s.pages.length : Int) ≤ i) := by omega
    rw [getPage, dif_neg hc]
    have hn : i.toNat < s.pages.length := by omega
    rw [List.getD_eq_getElem s.pages 0 hn]
    rfl

theorem getPage_bounds_witness :
    (getPage ⟨some 1, [4, 5]⟩ 1 = Except.ok 5) ∧
    (getPage ⟨some 1, [4, 5]⟩ (-1) = Except.error "Invalid page index") ∧
    (getPage ⟨some 1, [4, 5]⟩ 2 = Except.error "Invalid page index") :=
  ⟨(getPage_bounds ⟨some 1, [4, 5]⟩ 1).2 (by decide) (by decide),
   (getPage_bounds ⟨some 1, [4, 5]⟩ (-1)).1.mpr (Or.inl (by decide)),
   (getPage_bounds ⟨some 1, [4, 5]⟩ 2).1.mpr (Or.inr (by decide))⟩

/-- Claim C9: closeBrowser on a launched session closes the browser
    handle, nulls the browser field and clears the pages list; on a
    session with no browser it is a no-op that performs no close and
    leaves the state unchanged (and, being total, raises nothing); and
    running closeBrowser twice yields the same state as running it once,
    the second run doing nothing. -/
theorem closeBrowser_idempotent (s : BMState) :
    (∀ b, s.browser = some b →
      closeBrowser s = ({ browser := none, pages := [] }, [Ev.closeHandle b])) ∧
    (s.browser = none → closeBrowser s = (s, [])) ∧
    (closeBrowser (closeBrowser s).1 = ((closeBrowser s).1, [])) := by
  refine ⟨?_, ?_, ?_⟩
  · intro b hb
    simp [closeBrowser, hb]
  · intro hb
    simp [closeBrowser, hb]
  · cases hb : s.browser <;> simp [closeBrowser, hb]

theorem closeBrowser_idempotent_witness :
    (closeBrowser ⟨some 3, [9]⟩ = (⟨none, []⟩, [Ev.closeHandle 3])) ∧
    (closeBrowser ({} : BMState) = ({}, [])) ∧
    (closeBrowser (closeBrowser ⟨some 3, [9]⟩).1 = ((closeBrowser ⟨some 3, [9]⟩).1, [])) :=
  ⟨(closeBrowser_idempotent ⟨some 3, [9]⟩).1 3 rfl,
   (closeBrowser_idempotent ({} : BMState)).2.1 rfl,
   (closeBrowser_idempotent ⟨some 3, [9]⟩).2.2⟩

/-- Claim C10: killChromeProcesses is total (it never raises) and returns
    true when the underlying kill command succeeds, true when the command
    fails with a message that includes the text not found (no matching
    process is treated as success), and false on every other failure. -/
theorem killChromeProcesses_total (r : Except String Unit) :
    (∀ u, r = Except.ok u → killChromeProcesses r = true) ∧
    (∀ m, r = Except.error m → stringIncludes m "not found" = true →
      killChromeProcesses r = true) ∧
    (∀ m, r = Except.error m → stringIncludes m "not found" = false →
      killChromeProcesses r = false) := by
  refine ⟨?_, ?_, ?_⟩
  · intro u hr
    rw [hr]
    rfl
  · intro m hr hm
    rw [hr]
    simp [killChromeProcesses, hm]
  · intro m hr hm
    rw [hr]
    simp [killChromeProcesses, hm]

theorem killChromeProcesses_total_witness :
    (killChromeProcesses (Except.ok ()) = true) ∧
    (killChromeProcesses
      (Except.error "ERROR: The process chrome.exe not found.") = true) ∧
    (killChromeProcesses (Except.error "Access is denied.") = false) :=
  ⟨(killChromeProcesses_total (Except.ok ())).1 () rfl,
   (killChromeProcesses_total
      (Except.error "ERROR: The process chrome.exe not found.")).2.1
      "ERROR: The process chrome.exe not found." rfl (by decide),
   (killChromeProcesses_total (Except.error "Access is denied.")).2.2
      "Access is denied." rfl (by decide)⟩

end Crawly
